import Mathlib

/-!
Shallow embedding of the payloops/backend webhook-reconciliation subsystem.

The definitions below are translated from the TypeScript source:
  - src/routes/webhooks/stripe.ts   (Stripe webhook handler, `processStripeEvent`,
    `updateOrderStatusDirectly`, `updateOrderFailedDirectly`)
  - src/routes/webhooks/razorpay.ts (Razorpay webhook handler, `processRazorpayEvent`
    and its own direct-update helpers; the file appears in src/routes/v1/checkout.ts
    of the snapshot after the document separator)
  - src/routes/v1/orders.ts         (merchant refund endpoint)
  - src/db/schema.ts                (table shapes and foreign keys)

Modelling conventions:
  - The Postgres database is a record of lists of rows.  Each Drizzle statement
    (`db.update(...)`, `db.insert(...)`) is one `DbOp`; the handlers issue these
    statements sequentially and in the source there is no `db.transaction` wrapper,
    so every statement commits independently.  `ProcResult` threads the database,
    the list of issued statements, and an `ok` flag (false once a statement has
    thrown, e.g. a foreign-key violation; subsequent statements do not run, and
    the HTTP handler's catch-all turns the exception into a 500).
  - `transactions.order_id` is NOT NULL and REFERENCES orders(id), so an insert
    whose `orderId` matches no order row fails (modelled by `applyOp` returning
    `none`).  `webhook_events` inserts are only reached with a previously loaded
    order and the handler's merchant id, so they are modelled as always succeeding.
  - Timestamps are abstract `Nat` ticks (`now` parameter standing for `new Date()`).
  - JSON parsing of the raw body, Stripe's `stripe.webhooks.constructEvent`
    signature check and Razorpay's `crypto.createHmac('sha256', secret)` are
    library calls on opaque data; they are passed to the handlers as function
    parameters (`parse`, `verify`, `hmac`).  Credential decryption is not
    modelled: `ProcessorConfig` carries the decrypted credential fields the
    handlers read (`secretKey`, `webhookSecret`).
  - `signalPaymentCompletion` (Temporal RPC) either succeeds or throws; the
    boolean parameter `signalOk` selects which.  `startWebhookDeliveryWorkflow`
    mutates no table in this repository and is not modelled.
  - Amounts are `Int` (JS numbers holding integral minor currency units).
  - Status and type columns are `varchar` in the schema and plain string
    literals in the handlers, so they are `String` here.
-/

/-- One row of the `orders` table (fields used by the webhook handlers). -/
structure Order where
  id : String
  merchantId : String
  externalId : String
  amount : Int
  currency : String
  status : String
  processorOrderId : Option String
  workflowId : Option String
  updatedAt : Nat
deriving DecidableEq, Repr

/-- One row of the `transactions` table (fields written by the handlers;
the `processorResponse` JSON blob is not modelled). -/
structure Transaction where
  orderId : String
  txnType : String
  amount : Int
  status : String
  processorTransactionId : Option String
  errorCode : Option String
  errorMessage : Option String
deriving DecidableEq, Repr

/-- The JSON payload written into a `webhook_events` row.  Stripe fills
`processorEventId`/`processorEventType`; Razorpay fills `processorEvent`. -/
structure WebhookPayload where
  orderId : Option String
  externalId : String
  amount : Int
  currency : String
  status : String
  processor : String
  processorEventId : Option String
  processorEventType : Option String
  processorEvent : Option String
deriving DecidableEq, Repr

/-- One row of the `webhook_events` outbox table (delivery-tracking columns
that the reconciliation path never writes are omitted). -/
structure WebhookEvent where
  merchantId : String
  orderId : Option String
  eventType : String
  payload : WebhookPayload
  status : String
deriving DecidableEq, Repr

/-- One row of the `merchants` table (fields used by the handlers). -/
structure Merchant where
  id : String
  webhookUrl : Option String
deriving DecidableEq, Repr

/-- One row of `processor_configs`, with the credentials already decrypted
(the handlers read `credentials.secretKey` and `credentials.webhookSecret`
from the decrypted JSON; `webhookSecret` may be absent). -/
structure ProcessorConfig where
  merchantId : String
  processor : String
  secretKey : String
  webhookSecret : Option String
deriving DecidableEq, Repr

/-- The database state: the tables touched by the reconciliation subsystem. -/
structure DB where
  merchants : List Merchant
  orders : List Order
  transactions : List Transaction
  webhookEvents : List WebhookEvent
  processorConfigs : List ProcessorConfig
deriving DecidableEq, Repr

/-- One SQL statement issued by the handlers.  `updateOrder` is the
`db.update(orders).set({...}).where(eq(orders.id, orderId))` statement;
`newProcessorOrderId = none` means the statement does not touch that column. -/
inductive DbOp where
  | updateOrder (orderId : String) (newStatus : String)
      (newProcessorOrderId : Option String) (now : Nat)
  | insertTxn (t : Transaction)
  | insertOutbox (w : WebhookEvent)
deriving DecidableEq, Repr

/-- The row transformation performed by an `updateOrder` statement on a
matching row. -/
def setOrderRow (stat : String) (poid : Option String) (now : Nat) (o : Order) : Order :=
  { o with
    status := stat
    processorOrderId := match poid with | some p => some p | none => o.processorOrderId
    updatedAt := now }

/-- The per-row function of the `updateOrder` statement (rows whose id does
not match are untouched; an UPDATE matching zero rows succeeds and changes
nothing, as in SQL). -/
def updOrder (oid stat : String) (poid : Option String) (now : Nat) (o : Order) : Order :=
  if o.id == oid then setOrderRow stat poid now o else o

/-- Execute one statement.  `none` means the statement threw: the only
modelled failure is the `transactions.order_id` foreign-key violation. -/
def applyOp (db : DB) : DbOp → Option DB
  | .updateOrder oid stat poid now =>
      some { db with orders := db.orders.map (updOrder oid stat poid now) }
  | .insertTxn t =>
      if db.orders.any (fun o => o.id == t.orderId) then
        some { db with transactions := db.transactions ++ [t] }
      else
        none
  | .insertOutbox w =>
      some { db with webhookEvents := db.webhookEvents ++ [w] }

/-- Execute a list of statements; a failing statement leaves the database as
it was (the earlier statements stay committed, since the source wraps nothing
in a database transaction). -/
def applyOps (db : DB) (ops : List DbOp) : DB :=
  ops.foldl (fun d op => (applyOp d op).getD d) db

/-- State threaded through an event-processing run: current database, the
statements issued so far, and whether an exception is propagating
(`ok = false` once a statement threw; nothing further runs). -/
structure ProcResult where
  db : DB
  ops : List DbOp
  ok : Bool
deriving DecidableEq, Repr

/-- Issue one statement (a no-op if an exception is already propagating). -/
def issue (r : ProcResult) (op : DbOp) : ProcResult :=
  if r.ok then
    match applyOp r.db op with
    | some db' => ⟨db', r.ops ++ [op], true⟩
    | none => ⟨r.db, r.ops, false⟩
  else r

/-- JavaScript `String.prototype.replace` with a string pattern replaces only
the first occurrence; character-list worker. -/
def jsReplaceChars (pat rep : List Char) : List Char → List Char
  | [] => if pat.isPrefixOf ([] : List Char) then rep else []
  | c :: rest =>
    if pat.isPrefixOf (c :: rest) then rep ++ (c :: rest).drop pat.length
    else c :: jsReplaceChars pat rep rest

/-- JavaScript `s.replace(pat, rep)` for string patterns. -/
def jsReplace (s pat rep : String) : String :=
  ⟨jsReplaceChars pat.data rep.data s.data⟩

/-- JavaScript `s.startsWith(pre)`. -/
def jsStartsWith (s pre : String) : Bool :=
  pre.data.isPrefixOf s.data

/-- The `data.object` of a Stripe event, as the handler casts it: a
PaymentIntent for `payment_intent.*` events, a Charge for `charge.*` events. -/
structure StripePaymentIntent where
  id : String
  amount : Int
  metadataMerchantId : Option String
  metadataOrderId : Option String
  lastPaymentErrorCode : Option String
  lastPaymentErrorMessage : Option String
deriving DecidableEq, Repr

/-- A Stripe Charge object (fields read by the handler). -/
structure StripeCharge where
  id : String
  amount : Int
  amountRefunded : Int
  metadataMerchantId : Option String
  metadataOrderId : Option String
deriving DecidableEq, Repr

/-- The shape of `event.data.object`. -/
inductive StripeEventObject where
  | paymentIntent (pi : StripePaymentIntent)
  | charge (ch : StripeCharge)
  | other
deriving DecidableEq, Repr

/-- A parsed Stripe event (`JSON.parse(rawBody) as Stripe.Event`). -/
structure StripeEvent where
  id : String
  eventType : String
  object : StripeEventObject
deriving DecidableEq, Repr

/-- Metadata extraction in the Stripe handler body: `merchant_id` / `order_id`
from the payment intent or charge metadata, keyed on the event-type prefix. -/
def stripeExtractIds (event : StripeEvent) : Option String × Option String :=
  if jsStartsWith event.eventType "payment_intent" then
    match event.object with
    | .paymentIntent p => (p.metadataMerchantId, p.metadataOrderId)
    | _ => (none, none)
  else if jsStartsWith event.eventType "charge" then
    match event.object with
    | .charge ch => (ch.metadataMerchantId, ch.metadataOrderId)
    | _ => (none, none)
  else (none, none)

namespace StripeRoute

/-- Helper `updateOrderStatusDirectly` of src/routes/webhooks/stripe.ts:
UPDATE the order row (status, processorOrderId, updatedAt), then INSERT a
successful `capture` transaction. -/
def updateOrderStatusDirectly (oid stat : String) (p : StripePaymentIntent)
    (now : Nat) (r : ProcResult) : ProcResult :=
  let r1 := issue r (.updateOrder oid stat (some p.id) now)
  issue r1 (.insertTxn ⟨oid, "capture", p.amount, "success", some p.id, none, none⟩)

/-- Helper `updateOrderFailedDirectly` of src/routes/webhooks/stripe.ts:
UPDATE the order to `failed`, then INSERT a failed `authorization`
transaction carrying the payment error. -/
def updateOrderFailedDirectly (oid : String) (p : StripePaymentIntent)
    (now : Nat) (r : ProcResult) : ProcResult :=
  let r1 := issue r (.updateOrder oid "failed" none now)
  issue r1 (.insertTxn ⟨oid, "authorization", p.amount, "failed", some p.id,
    p.lastPaymentErrorCode, p.lastPaymentErrorMessage⟩)

/-- The pending `webhook_events` row the Stripe handler inserts: the event
type with the processor prefix rewritten, and a payload snapshotting the
order row `o` as read back after any mutation. -/
def outboxRow (event : StripeEvent) (merchantId oid : String) (o : Order) : WebhookEvent :=
  ⟨merchantId, some oid,
    "payment." ++ jsReplace (jsReplace event.eventType "payment_intent." "") "charge." "",
    ⟨some oid, o.externalId, o.amount, o.currency, o.status, "stripe",
      some event.id, some event.eventType, none⟩,
    "pending"⟩

/-- The merchant-notification tail of `processStripeEvent`: re-read the order
(after any mutation), join its merchant, and if the merchant has a webhook
URL, INSERT the `outboxRow` for the event. -/
def enqueueWebhook (event : StripeEvent) (merchantId : String)
    (orderId : Option String) (r : ProcResult) : ProcResult :=
  match orderId with
  | none => r
  | some oid =>
    match r.db.orders.find? (fun o => o.id == oid) with
    | none => r
    | some o =>
      match r.db.merchants.find? (fun m => m.id == o.merchantId) with
      | none => r
      | some m =>
        match m.webhookUrl with
        | none => r
        | some _ =>
          issue r (.insertOutbox (outboxRow event merchantId oid o))

/-- `processStripeEvent` of src/routes/webhooks/stripe.ts: the switch over
`event.type` followed by the merchant-notification insert. -/
def processStripeEvent (signalOk : Bool) (now : Nat) (event : StripeEvent)
    (merchantId : String) (orderId : Option String) (db : DB) : ProcResult :=
  let r0 : ProcResult := ⟨db, [], true⟩
  let r1 :=
    if event.eventType == "payment_intent.succeeded" then
      match event.object, orderId with
      | .paymentIntent p, some oid =>
        match db.orders.find? (fun o => o.id == oid) with
        | some o =>
          if o.workflowId.isSome && o.status == "requires_action" then
            if signalOk then r0
            else updateOrderStatusDirectly oid "captured" p now r0
          else updateOrderStatusDirectly oid "captured" p now r0
        | none => updateOrderStatusDirectly oid "captured" p now r0
      | _, _ => r0
    else if event.eventType == "payment_intent.payment_failed" then
      match event.object, orderId with
      | .paymentIntent p, some oid =>
        match db.orders.find? (fun o => o.id == oid) with
        | some o =>
          if o.workflowId.isSome && o.status == "requires_action" then
            if signalOk then r0
            else updateOrderFailedDirectly oid p now r0
          else updateOrderFailedDirectly oid p now r0
        | none => updateOrderFailedDirectly oid p now r0
      | _, _ => r0
    else if event.eventType == "charge.refunded" then
      match event.object, orderId with
      | .charge ch, some oid =>
        let refundAmount := ch.amountRefunded
        let r := issue r0 (.updateOrder oid
          (if refundAmount ≥ ch.amount then "refunded" else "partially_refunded") none now)
        issue r (.insertTxn ⟨oid, "refund", refundAmount, "success", some ch.id, none, none⟩)
      | _, _ => r0
    else r0
  if r1.ok then enqueueWebhook event merchantId orderId r1 else r1

end StripeRoute

/-- The `payment.entity` object of a Razorpay webhook payload (fields the
handler reads; `notes` carries the merchant/order correlation). -/
structure RzpPaymentEntity where
  id : String
  amount : Int
  notesMerchantId : Option String
  notesOrderId : Option String
  errorCode : Option String
  errorDescription : Option String
deriving DecidableEq, Repr

/-- The `refund.entity` object of a Razorpay webhook payload. -/
structure RzpRefundEntity where
  id : String
  amount : Int
  notesMerchantId : Option String
  notesOrderId : Option String
deriving DecidableEq, Repr

/-- A parsed Razorpay webhook payload (`JSON.parse(rawBody)`): the event name
and the optional `payload.payment.entity` / `payload.refund.entity`. -/
structure RazorpayPayload where
  event : String
  payment : Option RzpPaymentEntity
  refund : Option RzpRefundEntity
deriving DecidableEq, Repr

/-- Correlation extraction in the Razorpay handler body: `merchant_id` /
`order_id` from `payment.entity.notes`, else from `refund.entity.notes`. -/
def razorpayExtractIds (payload : RazorpayPayload) : Option String × Option String :=
  match payload.payment with
  | some p => (p.notesMerchantId, p.notesOrderId)
  | none =>
    match payload.refund with
    | some r => (r.notesMerchantId, r.notesOrderId)
    | none => (none, none)

namespace RazorpayRoute

/-- Helper `updateOrderStatusDirectly` of src/routes/webhooks/razorpay.ts. -/
def updateOrderStatusDirectly (oid stat : String) (p : RzpPaymentEntity)
    (now : Nat) (r : ProcResult) : ProcResult :=
  let r1 := issue r (.updateOrder oid stat (some p.id) now)
  issue r1 (.insertTxn ⟨oid, "capture", p.amount, "success", some p.id, none, none⟩)

/-- Helper `updateOrderFailedDirectly` of src/routes/webhooks/razorpay.ts. -/
def updateOrderFailedDirectly (oid : String) (p : RzpPaymentEntity)
    (now : Nat) (r : ProcResult) : ProcResult :=
  let r1 := issue r (.updateOrder oid "failed" none now)
  issue r1 (.insertTxn ⟨oid, "authorization", p.amount, "failed", some p.id,
    p.errorCode, p.errorDescription⟩)

/-- The pending `webhook_events` row the Razorpay handler inserts. -/
def outboxRow (payload : RazorpayPayload) (merchantId oid : String) (o : Order) : WebhookEvent :=
  ⟨merchantId, some oid,
    "payment." ++ jsReplace (jsReplace payload.event "payment." "") "refund." "refund_",
    ⟨some oid, o.externalId, o.amount, o.currency, o.status, "razorpay",
      none, none, some payload.event⟩,
    "pending"⟩

/-- The merchant-notification tail of `processRazorpayEvent`. -/
def enqueueWebhook (payload : RazorpayPayload) (merchantId : String)
    (orderId : Option String) (r : ProcResult) : ProcResult :=
  match orderId with
  | none => r
  | some oid =>
    match r.db.orders.find? (fun o => o.id == oid) with
    | none => r
    | some o =>
      match r.db.merchants.find? (fun m => m.id == o.merchantId) with
      | none => r
      | some m =>
        match m.webhookUrl with
        | none => r
        | some _ =>
          issue r (.insertOutbox (outboxRow payload merchantId oid o))

/-- `processRazorpayEvent` of src/routes/webhooks/razorpay.ts.  The source
reads `payload.payload.payment!.entity` (non-null assertion): a missing
entity throws at runtime, modelled as `ok := false` with no statement run. -/
def processRazorpayEvent (signalOk : Bool) (now : Nat) (payload : RazorpayPayload)
    (merchantId : String) (orderId : Option String) (db : DB) : ProcResult :=
  let r0 : ProcResult := ⟨db, [], true⟩
  let r1 :=
    if payload.event == "payment.captured" then
      match payload.payment with
      | none => { r0 with ok := false }
      | some p =>
        match orderId with
        | some oid =>
          match db.orders.find? (fun o => o.id == oid) with
          | some o =>
            if o.workflowId.isSome && o.status == "requires_action" then
              if signalOk then r0
              else updateOrderStatusDirectly oid "captured" p now r0
            else updateOrderStatusDirectly oid "captured" p now r0
          | none => updateOrderStatusDirectly oid "captured" p now r0
        | none => r0
    else if payload.event == "payment.failed" then
      match payload.payment with
      | none => { r0 with ok := false }
      | some p =>
        match orderId with
        | some oid =>
          match db.orders.find? (fun o => o.id == oid) with
          | some o =>
            if o.workflowId.isSome && o.status == "requires_action" then
              if signalOk then r0
              else updateOrderFailedDirectly oid p now r0
            else updateOrderFailedDirectly oid p now r0
          | none => updateOrderFailedDirectly oid p now r0
        | none => r0
    else if payload.event == "refund.processed" then
      match payload.refund with
      | none => { r0 with ok := false }
      | some rf =>
        match orderId with
        | some oid =>
          match db.orders.find? (fun o => o.id == oid) with
          | some o =>
            let r := issue r0 (.updateOrder oid
              (if rf.amount ≥ o.amount then "refunded" else "partially_refunded") none now)
            issue r (.insertTxn ⟨oid, "refund", rf.amount, "success", some rf.id, none, none⟩)
          | none => r0
        | none => r0
    else r0
  if r1.ok then enqueueWebhook payload merchantId orderId r1 else r1

end RazorpayRoute

/-- The possible HTTP responses of the two webhook receivers. -/
inductive WebhookResponse where
  | received              -- 200 {received:true}
  | errMissingSignature   -- 400 missing_signature
  | errNoConfig           -- 400 no_config
  | errInvalidSignature   -- 400 invalid_signature
  | errProcessing         -- 500 processing_error
deriving DecidableEq, Repr

/-- The HTTP status code of each response. -/
def WebhookResponse.code : WebhookResponse → Nat
  | .received => 200
  | .errMissingSignature => 400
  | .errNoConfig => 400
  | .errInvalidSignature => 400
  | .errProcessing => 500

/-- Observable steps of a handler run, in execution order: JSON-parsing the
body, running the signature check (recording the exact bytes it was given),
and entering event processing. -/
inductive HandlerStep where
  | jsonParse
  | verifyStep (raw : String)
  | processEvent
deriving DecidableEq, Repr

/-- Result of one handler invocation: HTTP response, database after the run,
and the trace of observable steps. -/
structure HandlerResult where
  response : WebhookResponse
  db : DB
  trace : List HandlerStep
deriving DecidableEq, Repr

/-- The Stripe webhook receiver (`app.post('/')` of
src/routes/webhooks/stripe.ts).  `verify` stands for
`stripe.webhooks.constructEvent(rawBody, signature, webhookSecret)` returning
whether the signature matches; `parse` stands for `JSON.parse` plus the
event-shape cast (`none` when `JSON.parse` throws). -/
def stripeWebhookHandler (verify : String → String → String → Bool)
    (parse : String → Option StripeEvent) (signalOk : Bool) (now : Nat)
    (db : DB) (signature : Option String) (rawBody : String) : HandlerResult :=
  match signature with
  | none => ⟨.errMissingSignature, db, []⟩
  | some sig =>
    match parse rawBody with
    | none => ⟨.errProcessing, db, [.jsonParse]⟩
    | some event =>
      match stripeExtractIds event with
      | (none, _) => ⟨.received, db, [.jsonParse]⟩
      | (some merchantId, orderId) =>
        match db.processorConfigs.find?
            (fun cf => cf.merchantId == merchantId && cf.processor == "stripe") with
        | none => ⟨.errNoConfig, db, [.jsonParse]⟩
        | some cfg =>
          match cfg.webhookSecret with
          | some secret =>
            if verify rawBody sig secret then
              let r := StripeRoute.processStripeEvent signalOk now event merchantId orderId db
              ⟨if r.ok then .received else .errProcessing, r.db,
                [.jsonParse, .verifyStep rawBody, .processEvent]⟩
            else ⟨.errInvalidSignature, db, [.jsonParse, .verifyStep rawBody]⟩
          | none =>
            let r := StripeRoute.processStripeEvent signalOk now event merchantId orderId db
            ⟨if r.ok then .received else .errProcessing, r.db, [.jsonParse, .processEvent]⟩

/-- The Razorpay webhook receiver (`app.post('/')` of
src/routes/webhooks/razorpay.ts).  `hmac secret body` stands for
`crypto.createHmac('sha256', secret).update(body).digest('hex')`; the
handler compares it for string equality with the signature header. -/
def razorpayWebhookHandler (hmac : String → String → String)
    (parse : String → Option RazorpayPayload) (signalOk : Bool) (now : Nat)
    (db : DB) (signature : Option String) (rawBody : String) : HandlerResult :=
  match signature with
  | none => ⟨.errMissingSignature, db, []⟩
  | some sig =>
    match parse rawBody with
    | none => ⟨.errProcessing, db, [.jsonParse]⟩
    | some payload =>
      match razorpayExtractIds payload with
      | (none, _) => ⟨.received, db, [.jsonParse]⟩
      | (some merchantId, orderId) =>
        match db.processorConfigs.find?
            (fun cf => cf.merchantId == merchantId && cf.processor == "razorpay") with
        | none => ⟨.errNoConfig, db, [.jsonParse]⟩
        | some cfg =>
          match cfg.webhookSecret with
          | some secret =>
            if sig == hmac secret rawBody then
              let r := RazorpayRoute.processRazorpayEvent signalOk now payload merchantId orderId db
              ⟨if r.ok then .received else .errProcessing, r.db,
                [.jsonParse, .verifyStep rawBody, .processEvent]⟩
            else ⟨.errInvalidSignature, db, [.jsonParse, .verifyStep rawBody]⟩
          | none =>
            let r := RazorpayRoute.processRazorpayEvent signalOk now payload merchantId orderId db
            ⟨if r.ok then .received else .errProcessing, r.db, [.jsonParse, .processEvent]⟩

/-- Whether a trace contains a signature-check step. -/
def containsVerify : List HandlerStep → Bool
  | [] => false
  | .verifyStep _ :: _ => true
  | _ :: rest => containsVerify rest

/-- Whether a JSON-parse step occurs strictly before some signature-check
step in a trace. -/
def parseBeforeVerify : List HandlerStep → Bool
  | [] => false
  | .jsonParse :: rest => containsVerify rest
  | _ :: rest => parseBeforeVerify rest

/-- Every signature-check step in the trace was given exactly `raw`. -/
def verifyUsesRaw (raw : String) : List HandlerStep → Bool
  | [] => true
  | .verifyStep b :: rest => b == raw && verifyUsesRaw raw rest
  | _ :: rest => verifyUsesRaw raw rest

/-- The merchant refund endpoint (`app.post('/:id/refund')` of
src/routes/v1/orders.ts): load the order scoped to the merchant, require
status `captured` or `partially_refunded`, default the amount to the order
amount, and INSERT a pending refund transaction (no order mutation). -/
def refundOrderRoute (db : DB) (merchantId oid : String)
    (amountArg : Option Int) : Option Int × DB :=
  match db.orders.find? (fun o => o.id == oid && o.merchantId == merchantId) with
  | none => (none, db)
  | some o =>
    if o.status == "captured" || o.status == "partially_refunded" then
      let refundAmount := match amountArg with | some a => a | none => o.amount
      (some refundAmount,
        { db with transactions := db.transactions ++
            [⟨o.id, "refund", refundAmount, "pending", none, none, none⟩] })
    else (none, db)

/-- Sum of the amounts of an order's transactions matching a type, counting
only `success` rows. -/
def successSum (db : DB) (oid ty : String) : Int :=
  (db.transactions.filter
    (fun t => t.orderId == oid && t.txnType == ty && t.status == "success")).foldl
    (fun s t => s + t.amount) 0

/-- The ledger quantity of the Transaction-table invariant: successful
capture amounts minus successful refund amounts for one order. -/
def ledgerSum (db : DB) (oid : String) : Int :=
  successSum db oid "capture" - successSum db oid "refund"

/-! Concrete test fixtures used by the counterexample and witness theorems. -/

/-- A merchant with a configured webhook URL. -/
def merchA : Merchant := ⟨"m1", some "https://merchant.example/hooks"⟩

/-- A merchant with no webhook URL. -/
def merchB : Merchant := ⟨"m2", none⟩

/-- A Stripe processor config for `merchA`, with a webhook secret. -/
def cfgStripeA : ProcessorConfig := ⟨"m1", "stripe", "sk_a", some "whsec_a"⟩

/-- A Stripe processor config for `merchB`. -/
def cfgStripeB : ProcessorConfig := ⟨"m2", "stripe", "sk_b", some "whsec_b"⟩

/-- A Razorpay processor config for `merchA`. -/
def cfgRzpA : ProcessorConfig := ⟨"m1", "razorpay", "rzp_a", some "rzpsec_a"⟩

/-- An order of `merchA` in `processing` with no workflow attached. -/
def ordProcessing : Order := ⟨"o1", "m1", "ext1", 1000, "USD", "processing", none, none, 0⟩

/-- An order of `merchA` in `requires_action` with a live workflow. -/
def ordAwaiting : Order := ⟨"o1", "m1", "ext1", 1000, "USD", "requires_action", none, some "wf_1", 0⟩

/-- An order of `merchA` already `captured`. -/
def ordCaptured : Order := ⟨"o1", "m1", "ext1", 1000, "USD", "captured", some "pi_1", none, 0⟩

/-- A succeeded payment-intent event for `ordProcessing` (capture of 1000). -/
def evCapture : StripeEvent :=
  ⟨"evt_c", "payment_intent.succeeded", .paymentIntent ⟨"pi_1", 1000, some "m1", some "o1", none, none⟩⟩

/-- A full-refund charge event (charge amount 1000, amount_refunded 1000). -/
def evRefundFull : StripeEvent :=
  ⟨"evt_rf", "charge.refunded", .charge ⟨"ch_1", 1000, 1000, some "m1", some "o1"⟩⟩

/-- A partial-refund charge event: amount_refunded 600 of charge amount 1000. -/
def evRefund600 : StripeEvent :=
  ⟨"evt_r6", "charge.refunded", .charge ⟨"ch_1", 1000, 600, some "m1", some "o1"⟩⟩

/-- A charge event whose charge amount (500) is below the order amount
(1000) and is fully refunded at the charge level. -/
def evRefundSmallCharge : StripeEvent :=
  ⟨"evt_rs", "charge.refunded", .charge ⟨"ch_s", 500, 500, some "m1", some "o1"⟩⟩

/-- A succeeded payment-intent event whose metadata references an order id
that exists in no `orders` row. -/
def evCaptureMissingOrder : StripeEvent :=
  ⟨"evt_m", "payment_intent.succeeded",
    .paymentIntent ⟨"pi_9", 500, some "m1", some "o_missing", none, none⟩⟩

/-- A database with `merchA`, its Stripe and Razorpay configs and `ordProcessing`. -/
def dbProcessing : DB := ⟨[merchA], [ordProcessing], [], [], [cfgStripeA, cfgRzpA]⟩

/-- A database with `merchA` and `ordAwaiting`. -/
def dbAwaiting : DB := ⟨[merchA], [ordAwaiting], [], [], [cfgStripeA, cfgRzpA]⟩

/-- A database with `merchA` and `ordCaptured`. -/
def dbCaptured : DB := ⟨[merchA], [ordCaptured], [], [], [cfgStripeA, cfgRzpA]⟩

/-- A database with `merchA` and its configs but no orders at all. -/
def dbNoOrders : DB := ⟨[merchA], [], [], [], [cfgStripeA, cfgRzpA]⟩

/-- First delivery of `evCapture` against `dbProcessing`. -/
def runCapture1 : ProcResult :=
  StripeRoute.processStripeEvent true 1 evCapture "m1" (some "o1") dbProcessing

/-- Second (duplicate) delivery of the same event against the state left by
the first delivery. -/
def runCapture2 : ProcResult :=
  StripeRoute.processStripeEvent true 2 evCapture "m1" (some "o1") runCapture1.db

/-- The full-refund run used by the atomicity analysis. -/
def runRefundFull : ProcResult :=
  StripeRoute.processStripeEvent true 3 evRefundFull "m1" (some "o1") dbCaptured

/-- A concrete parse function standing for `JSON.parse` on the body bytes
used by the counterexample runs. -/
def parseFixture : String → Option StripeEvent :=
  fun s =>
    if s == "body_capture" then some evCapture
    else if s == "body_missing" then some evCaptureMissingOrder
    else none

/-- Stripe handler run on a body whose metadata orders an id with no row. -/
def runMissingOrder : HandlerResult :=
  stripeWebhookHandler (fun _ _ _ => true) parseFixture true 4 dbNoOrders
    (some "t=1,v1=sig") "body_missing"

/-- Stripe handler run on a well-formed body with a valid signature, used to
observe the step order of parsing and verification. -/
def runTraceObserved : HandlerResult :=
  stripeWebhookHandler (fun _ _ _ => true) parseFixture true 5 dbProcessing
    (some "t=1,v1=sig") "body_capture"

/-- Signal-success run of a capture event on the awaiting order. -/
def runSignalSuccess : ProcResult :=
  StripeRoute.processStripeEvent true 6 evCapture "m1" (some "o1") dbAwaiting

/-- The partial-refund-below-order-amount run (charge amount 500, order
amount 1000, refund 500). -/
def runSmallChargeRefund : ProcResult :=
  StripeRoute.processStripeEvent true 7 evRefundSmallCharge "m1" (some "o1") dbCaptured

/-- Capture followed by two 600 refund events on a 1000 order (ledger run 1). -/
def runLedger1 : ProcResult :=
  StripeRoute.processStripeEvent true 1 evCapture "m1" (some "o1") dbProcessing

/-- Ledger run 2: first 600 refund event after the capture. -/
def runLedger2 : ProcResult :=
  StripeRoute.processStripeEvent true 2 evRefund600 "m1" (some "o1") runLedger1.db

/-- Ledger run 3: second 600 refund event (at-least-once redelivery). -/
def runLedger3 : ProcResult :=
  StripeRoute.processStripeEvent true 3 evRefund600 "m1" (some "o1") runLedger2.db

/-- A Stripe event carrying no `merchant_id` in its metadata. -/
def evNoMerchant : StripeEvent :=
  ⟨"evt_n", "payment_intent.succeeded", .paymentIntent ⟨"pi_n", 100, none, none, none, none⟩⟩

/-- A parse function returning the metadata-less Stripe event. -/
def parseNoMerchant : String → Option StripeEvent := fun _ => some evNoMerchant

/-- A Razorpay payload whose notes carry no `merchant_id`. -/
def rzpNoMerchant : RazorpayPayload :=
  ⟨"payment.captured", some ⟨"pay_n", 100, none, none, none, none⟩, none⟩

/-- A parse function returning the notes-less Razorpay payload. -/
def parseRzpNoMerchant : String → Option RazorpayPayload := fun _ => some rzpNoMerchant

/-- A Stripe config for `merchA` whose stored credentials have no
`webhookSecret`. -/
def cfgStripeNoSec : ProcessorConfig := ⟨"m1", "stripe", "sk_a", none⟩

/-- A Razorpay config for `merchA` with no `webhookSecret`. -/
def cfgRzpNoSec : ProcessorConfig := ⟨"m1", "razorpay", "rzp_a", none⟩

/-- A database like `dbProcessing` but whose processor configs carry no
webhook secrets. -/
def dbNoSecret : DB := ⟨[merchA], [ordProcessing], [], [], [cfgStripeNoSec, cfgRzpNoSec]⟩

/-- A captured-payment Razorpay payload correlated to `merchA` / `o1`. -/
def rzpCapture : RazorpayPayload :=
  ⟨"payment.captured", some ⟨"pay_1", 1000, some "m1", some "o1", none, none⟩, none⟩

/-- A processed-refund Razorpay payload of amount 600 for `merchA` / `o1`. -/
def rzpRefund600 : RazorpayPayload :=
  ⟨"refund.processed", none, some ⟨"rfnd_1", 600, some "m1", some "o1"⟩⟩

/-- A parse function for Razorpay bodies used by the concrete runs. -/
def parseRzpFixture : String → Option RazorpayPayload :=
  fun s => if s == "rzp_capture" then some rzpCapture else none

/-- A failed payment-intent event for the awaiting order, carrying a payment
error. -/
def evFailed : StripeEvent :=
  ⟨"evt_f", "payment_intent.payment_failed",
    .paymentIntent ⟨"pi_1", 1000, some "m1", some "o1",
      some "card_declined", some "Card declined"⟩⟩

/-! Claim theorems. -/

/-- C1: the claim states that reprocessing an event whose processor
transaction id is already recorded is a no-op.  The code has no idempotency
check: delivering `evCapture` (processor txn id `pi_1`) a second time inserts
a second `capture` Transaction with the same `processorTransactionId` and a
second outbox row, re-updates the order, and still returns success. -/
theorem stripe_duplicate_event_is_reapplied :
    runCapture1.ok = true ∧
    (runCapture1.db.transactions.filter
      (fun t => t.processorTransactionId == some "pi_1")).length = 1 ∧
    runCapture1.db.webhookEvents.length = 1 ∧
    runCapture2.ok = true ∧
    (runCapture2.db.transactions.filter
      (fun t => t.processorTransactionId == some "pi_1")).length = 2 ∧
    runCapture2.db.webhookEvents.length = 2 :=
  ⟨rfl, rfl, rfl, rfl, rfl, rfl⟩

/-- C5: the reconciliation unit is not atomic.  The `charge.refunded` run
issues three independently-committed statements; executing only the first
(the state after a crash between the UPDATE and the INSERT) leaves the order
`refunded` with no refund Transaction committed, which the claim rules out. -/
theorem stripe_refund_unit_not_atomic :
    runRefundFull.db = applyOps dbCaptured runRefundFull.ops ∧
    runRefundFull.ops.length = 3 ∧
    (applyOps dbCaptured (runRefundFull.ops.take 1)).orders.map Order.status = ["refunded"] ∧
    (applyOps dbCaptured (runRefundFull.ops.take 1)).transactions = [] ∧
    runRefundFull.db.transactions.length = 1 :=
  ⟨rfl, rfl, rfl, rfl, rfl⟩

/-- C6: a capture event whose metadata order id matches no order row is not
dropped: the handler still attempts the direct mutation, the transaction
INSERT violates the `transactions.order_id` foreign key, and the request
fails with `processing_error` (HTTP 500) instead of completing successfully. -/
theorem stripe_missing_order_yields_500 :
    runMissingOrder.response = WebhookResponse.errProcessing ∧
    runMissingOrder.response.code = 500 ∧
    runMissingOrder.db = dbNoOrders :=
  ⟨rfl, rfl, rfl⟩

/-- C7: the ledger invariant fails on a reachable sequence: a capture of 1000
followed by two successfully processed 600-refund events (at-least-once
redelivery) drives successful captures minus successful refunds to -200 on an
order of amount 1000. -/
theorem ledger_invariant_violated :
    runLedger1.ok = true ∧ runLedger2.ok = true ∧ runLedger3.ok = true ∧
    dbProcessing.orders.map Order.amount = [1000] ∧
    ledgerSum runLedger3.db "o1" = -200 ∧
    ledgerSum runLedger3.db "o1" < 0 :=
  ⟨rfl, rfl, rfl, rfl, rfl, by decide⟩

/-- C3 counterexample: on signal success the engine records no audit
Transaction at all.  For the awaiting order, processing the capture event
with a successful signal leaves the orders and transactions tables untouched
(zero new Transactions, where the claim requires exactly one) while one
outbox row is written. -/
theorem stripe_signal_success_creates_no_txn :
    runSignalSuccess.ok = true ∧
    runSignalSuccess.db.orders = dbAwaiting.orders ∧
    runSignalSuccess.db.webhookEvents.length = 1 ∧
    runSignalSuccess.db.transactions.length = 0 ∧
    ¬ runSignalSuccess.db.transactions.length = dbAwaiting.transactions.length + 1 :=
  ⟨rfl, rfl, rfl, rfl, by decide⟩

/-- C4 counterexample: the Stripe refund branch compares `amount_refunded`
against the charge amount, not the order amount.  With order amount 1000 and
a 500 charge fully refunded (500 < 1000), the order is set to `refunded`,
where the claim requires `partially_refunded`. -/
theorem stripe_refund_compares_charge_amount :
    dbCaptured.orders.map Order.amount = [1000] ∧
    runSmallChargeRefund.db.orders.map Order.status = ["refunded"] ∧
    runSmallChargeRefund.db.transactions.map Transaction.amount = [500] ∧
    ¬ ((500 : Int) ≥ 1000) :=
  ⟨rfl, rfl, rfl, by decide⟩

/-- C2 counterexample: a run in which signature verification happens and a
JSON parse of the body strictly precedes it, contradicting the claim that
the signature is compared before any JSON parsing occurs. -/
theorem stripe_parse_precedes_verification :
    containsVerify runTraceObserved.trace = true ∧
    parseBeforeVerify runTraceObserved.trace = true ∧
    runTraceObserved.trace =
      [.jsonParse, .verifyStep "body_capture", .processEvent] :=
  ⟨rfl, rfl, rfl⟩

/-- A row updated by `setOrderRow` keeps its id. -/
theorem setOrderRow_id (s : String) (p : Option String) (n : Nat) (o : Order) :
    (setOrderRow s p n o).id = o.id := rfl

/-- A row updated by `setOrderRow` keeps its merchant reference. -/
theorem setOrderRow_merchantId (s : String) (p : Option String) (n : Nat) (o : Order) :
    (setOrderRow s p n o).merchantId = o.merchantId := rfl

/-- A successful `find?` yields a witness for `any`. -/
theorem any_of_find?_eq_some {α} {p : α → Bool} {l : List α} {a : α}
    (h : l.find? p = some a) : l.any p = true :=
  List.any_eq_true.2 ⟨a, List.mem_of_find?_eq_some h, List.find?_some h⟩

/-- Applying the UPDATE row function across a table commutes with looking up
the targeted id: the lookup returns the updated row. -/
theorem find?_map_updOrder (oid stat : String) (poid : Option String) (now : Nat)
    {l : List Order} {o : Order}
    (h : l.find? (fun x => x.id == oid) = some o) :
    (l.map (updOrder oid stat poid now)).find? (fun x => x.id == oid)
      = some (setOrderRow stat poid now o) := by
  induction l with
  | nil => simp at h
  | cons a t ih =>
    simp only [List.map_cons]
    by_cases hid : (a.id == oid) = true
    · rw [List.find?_cons_of_pos (p := fun x => x.id == oid) t hid] at h
      have ha : a = o := by injection h
      subst ha
      have hupd : updOrder oid stat poid now a = setOrderRow stat poid now a := by
        simp [updOrder, hid]
      rw [hupd]
      exact List.find?_cons_of_pos _ (by simpa [setOrderRow_id] using hid)
    · rw [List.find?_cons_of_neg (p := fun x => x.id == oid) t hid] at h
      have hupd : updOrder oid stat poid now a = a := by simp [updOrder, hid]
      rw [hupd, List.find?_cons_of_neg (p := fun x => x.id == oid) (List.map (updOrder oid stat poid now) t) hid]
      exact ih h

/-- Issuing an outbox insert never touches orders or transactions and never
fails. -/
theorem issue_insertOutbox_frame (r : ProcResult) (w : WebhookEvent) :
    (issue r (.insertOutbox w)).db.orders = r.db.orders ∧
    (issue r (.insertOutbox w)).db.transactions = r.db.transactions ∧
    (issue r (.insertOutbox w)).ok = r.ok := by
  unfold issue applyOp
  cases hok : r.ok <;> simp [hok]

/-- The Stripe notification tail in a healthy state where the order and its
merchant (with a webhook URL) are found: it appends exactly the outbox row. -/
theorem stripe_enqueue_found (ev : StripeEvent) (mid oid : String)
    (d : DB) (ops : List DbOp) (o : Order) (m : Merchant) (url : String)
    (hfind : d.orders.find? (fun x => x.id == oid) = some o)
    (hm : d.merchants.find? (fun x => x.id == o.merchantId) = some m)
    (hurl : m.webhookUrl = some url) :
    StripeRoute.enqueueWebhook ev mid (some oid) ⟨d, ops, true⟩ =
      ⟨{ d with webhookEvents := d.webhookEvents ++ [StripeRoute.outboxRow ev mid oid o] },
        ops ++ [.insertOutbox (StripeRoute.outboxRow ev mid oid o)], true⟩ := by
  unfold StripeRoute.enqueueWebhook
  simp only [hfind, hm, hurl, issue, applyOp]
  simp

/-- The Stripe notification tail never touches the orders or transactions
tables, and never changes the exception flag. -/
theorem stripe_enqueue_frame (ev : StripeEvent) (mid : String)
    (oid? : Option String) (r : ProcResult) :
    (StripeRoute.enqueueWebhook ev mid oid? r).db.orders = r.db.orders ∧
    (StripeRoute.enqueueWebhook ev mid oid? r).db.transactions = r.db.transactions ∧
    (StripeRoute.enqueueWebhook ev mid oid? r).ok = r.ok := by
  unfold StripeRoute.enqueueWebhook
  repeat' split
  all_goals first
    | exact issue_insertOutbox_frame _ _
    | exact ⟨rfl, rfl, rfl⟩

theorem stripe_signal_success_behavior
    (now : Nat) (ev : StripeEvent) (p : StripePaymentIntent) (mid oid wf : String)
    (db : DB) (o : Order) (m : Merchant) (url : String)
    (hty : ev.eventType = "payment_intent.succeeded")
    (hobj : ev.object = .paymentIntent p)
    (hfind : db.orders.find? (fun x => x.id == oid) = some o)
    (hwf : o.workflowId = some wf)
    (hst : o.status = "requires_action")
    (hm : db.merchants.find? (fun x => x.id == o.merchantId) = some m)
    (hurl : m.webhookUrl = some url) :
    StripeRoute.processStripeEvent true now ev mid (some oid) db =
      ⟨{ db with webhookEvents := db.webhookEvents ++ [StripeRoute.outboxRow ev mid oid o] },
        [.insertOutbox (StripeRoute.outboxRow ev mid oid o)], true⟩ := by
  unfold StripeRoute.processStripeEvent
  simp only [hty, hobj, hfind, hwf, hst]
  simp only [beq_self_eq_true, if_true, Option.isSome_some, Bool.true_and]
  have henq := stripe_enqueue_found ev mid oid db [] o m url hfind hm hurl
  simpa using henq

theorem stripe_signal_failure_fallback
    (now : Nat) (ev : StripeEvent) (p : StripePaymentIntent) (mid oid wf : String)
    (db : DB) (o : Order) (m : Merchant) (url : String)
    (hty : ev.eventType = "payment_intent.succeeded")
    (hobj : ev.object = .paymentIntent p)
    (hfind : db.orders.find? (fun x => x.id == oid) = some o)
    (hwf : o.workflowId = some wf)
    (hst : o.status = "requires_action")
    (hm : db.merchants.find? (fun x => x.id == o.merchantId) = some m)
    (hurl : m.webhookUrl = some url) :
    StripeRoute.processStripeEvent false now ev mid (some oid) db =
      ⟨{ db with
          orders := db.orders.map (updOrder oid "captured" (some p.id) now),
          transactions := db.transactions ++
            [⟨oid, "capture", p.amount, "success", some p.id, none, none⟩],
          webhookEvents := db.webhookEvents ++
            [StripeRoute.outboxRow ev mid oid (setOrderRow "captured" (some p.id) now o)] },
        [.updateOrder oid "captured" (some p.id) now,
         .insertTxn ⟨oid, "capture", p.amount, "success", some p.id, none, none⟩,
         .insertOutbox (StripeRoute.outboxRow ev mid oid (setOrderRow "captured" (some p.id) now o))],
        true⟩ := by
  have hfind2 := find?_map_updOrder oid "captured" (some p.id) now hfind
  have hany := any_of_find?_eq_some hfind2
  have hm2 : db.merchants.find?
      (fun x => x.id == (setOrderRow "captured" (some p.id) now o).merchantId) = some m := by
    simpa [setOrderRow_merchantId] using hm
  unfold StripeRoute.processStripeEvent StripeRoute.updateOrderStatusDirectly
  simp only [hty, hobj, hfind, hwf, hst]
  simp only [beq_self_eq_true, if_true, Option.isSome_some, Bool.true_and,
    Bool.false_eq_true, if_false]
  simp only [issue, applyOp, if_true, hany]
  have henq := stripe_enqueue_found ev mid oid
    { db with
        orders := db.orders.map (updOrder oid "captured" (some p.id) now),
        transactions := db.transactions ++
          [⟨oid, "capture", p.amount, "success", some p.id, none, none⟩] }
    [.updateOrder oid "captured" (some p.id) now,
     .insertTxn ⟨oid, "capture", p.amount, "success", some p.id, none, none⟩]
    (setOrderRow "captured" (some p.id) now o) m url hfind2 hm2 hurl
  simpa using henq

theorem stripe_refund_branch (signalOk : Bool)
    (now : Nat) (ev : StripeEvent) (ch : StripeCharge) (mid oid : String)
    (db : DB) (o : Order)
    (hty : ev.eventType = "charge.refunded")
    (hobj : ev.object = .charge ch)
    (hfind : db.orders.find? (fun x => x.id == oid) = some o) :
    (StripeRoute.processStripeEvent signalOk now ev mid (some oid) db).db.orders =
      db.orders.map (updOrder oid
        (if ch.amountRefunded ≥ ch.amount then "refunded" else "partially_refunded") none now) ∧
    (StripeRoute.processStripeEvent signalOk now ev mid (some oid) db).db.transactions =
      db.transactions ++ [⟨oid, "refund", ch.amountRefunded, "success", some ch.id, none, none⟩] ∧
    (StripeRoute.processStripeEvent signalOk now ev mid (some oid) db).ok = true := by
  have hfind2 := find?_map_updOrder oid
    (if ch.amountRefunded ≥ ch.amount then "refunded" else "partially_refunded") none now hfind
  have hany := any_of_find?_eq_some hfind2
  unfold StripeRoute.processStripeEvent
  simp only [hty, hobj]
  simp only [show (("charge.refunded" : String) == "payment_intent.succeeded") = false from rfl,
    show (("charge.refunded" : String) == "payment_intent.payment_failed") = false from rfl,
    show (("charge.refunded" : String) == "charge.refunded") = true from rfl,
    Bool.false_eq_true, if_false, if_true]
  simp only [issue, applyOp, if_true, hany]
  exact stripe_enqueue_frame ev mid (some oid) _

/-- The Razorpay notification tail never touches the orders or transactions
tables, and never changes the exception flag. -/
theorem razorpay_enqueue_frame (pl : RazorpayPayload) (mid : String)
    (oid? : Option String) (r : ProcResult) :
    (RazorpayRoute.enqueueWebhook pl mid oid? r).db.orders = r.db.orders ∧
    (RazorpayRoute.enqueueWebhook pl mid oid? r).db.transactions = r.db.transactions ∧
    (RazorpayRoute.enqueueWebhook pl mid oid? r).ok = r.ok := by
  unfold RazorpayRoute.enqueueWebhook
  repeat' split
  all_goals first
    | exact issue_insertOutbox_frame _ _
    | exact ⟨rfl, rfl, rfl⟩

theorem razorpay_refund_branch (signalOk : Bool)
    (now : Nat) (pl : RazorpayPayload) (rf : RzpRefundEntity) (mid oid : String)
    (db : DB) (o : Order)
    (hev : pl.event = "refund.processed")
    (href : pl.refund = some rf)
    (hfind : db.orders.find? (fun x => x.id == oid) = some o) :
    (RazorpayRoute.processRazorpayEvent signalOk now pl mid (some oid) db).db.orders =
      db.orders.map (updOrder oid
        (if rf.amount ≥ o.amount then "refunded" else "partially_refunded") none now) ∧
    (RazorpayRoute.processRazorpayEvent signalOk now pl mid (some oid) db).db.transactions =
      db.transactions ++ [⟨oid, "refund", rf.amount, "success", some rf.id, none, none⟩] ∧
    (RazorpayRoute.processRazorpayEvent signalOk now pl mid (some oid) db).ok = true := by
  have hfind2 := find?_map_updOrder oid
    (if rf.amount ≥ o.amount then "refunded" else "partially_refunded") none now hfind
  have hany := any_of_find?_eq_some hfind2
  unfold RazorpayRoute.processRazorpayEvent
  simp only [hev, href, hfind]
  simp only [show (("refund.processed" : String) == "payment.captured") = false from rfl,
    show (("refund.processed" : String) == "payment.failed") = false from rfl,
    show (("refund.processed" : String) == "refund.processed") = true from rfl,
    Bool.false_eq_true, if_false, if_true]
  simp only [issue, applyOp, if_true, hany]
  exact razorpay_enqueue_frame pl mid (some oid) _

/-- The Razorpay notification tail in a healthy state where the order and its
merchant (with a webhook URL) are found: it appends exactly the outbox row. -/
theorem razorpay_enqueue_found (pl : RazorpayPayload) (mid oid : String)
    (d : DB) (ops : List DbOp) (o : Order) (m : Merchant) (url : String)
    (hfind : d.orders.find? (fun x => x.id == oid) = some o)
    (hm : d.merchants.find? (fun x => x.id == o.merchantId) = some m)
    (hurl : m.webhookUrl = some url) :
    RazorpayRoute.enqueueWebhook pl mid (some oid) ⟨d, ops, true⟩ =
      ⟨{ d with webhookEvents := d.webhookEvents ++ [RazorpayRoute.outboxRow pl mid oid o] },
        ops ++ [.insertOutbox (RazorpayRoute.outboxRow pl mid oid o)], true⟩ := by
  unfold RazorpayRoute.enqueueWebhook
  simp only [hfind, hm, hurl, issue, applyOp]
  simp

/-- Signal-success behaviour of the Stripe `payment_intent.payment_failed`
branch: no statement from the switch, one outbox insert from the tail. -/
theorem stripe_signal_failed_behavior
    (now : Nat) (ev : StripeEvent) (p : StripePaymentIntent) (mid oid wf : String)
    (db : DB) (o : Order) (m : Merchant) (url : String)
    (hty : ev.eventType = "payment_intent.payment_failed")
    (hobj : ev.object = .paymentIntent p)
    (hfind : db.orders.find? (fun x => x.id == oid) = some o)
    (hwf : o.workflowId = some wf)
    (hst : o.status = "requires_action")
    (hm : db.merchants.find? (fun x => x.id == o.merchantId) = some m)
    (hurl : m.webhookUrl = some url) :
    StripeRoute.processStripeEvent true now ev mid (some oid) db =
      ⟨{ db with webhookEvents := db.webhookEvents ++ [StripeRoute.outboxRow ev mid oid o] },
        [.insertOutbox (StripeRoute.outboxRow ev mid oid o)], true⟩ := by
  unfold StripeRoute.processStripeEvent
  simp only [hty, hobj, hfind, hwf, hst]
  simp only [show (("payment_intent.payment_failed" : String) ==
      "payment_intent.succeeded") = false from rfl,
    show (("payment_intent.payment_failed" : String) ==
      "payment_intent.payment_failed") = true from rfl,
    Bool.false_eq_true, if_false, if_true, Option.isSome_some, Bool.true_and,
    beq_self_eq_true]
  have henq := stripe_enqueue_found ev mid oid db [] o m url hfind hm hurl
  simpa using henq

/-- Signal-success behaviour of the Razorpay `payment.captured` branch. -/
theorem razorpay_signal_captured_behavior
    (now : Nat) (pl : RazorpayPayload) (p : RzpPaymentEntity) (mid oid wf : String)
    (db : DB) (o : Order) (m : Merchant) (url : String)
    (hev : pl.event = "payment.captured")
    (hpay : pl.payment = some p)
    (hfind : db.orders.find? (fun x => x.id == oid) = some o)
    (hwf : o.workflowId = some wf)
    (hst : o.status = "requires_action")
    (hm : db.merchants.find? (fun x => x.id == o.merchantId) = some m)
    (hurl : m.webhookUrl = some url) :
    RazorpayRoute.processRazorpayEvent true now pl mid (some oid) db =
      ⟨{ db with webhookEvents := db.webhookEvents ++ [RazorpayRoute.outboxRow pl mid oid o] },
        [.insertOutbox (RazorpayRoute.outboxRow pl mid oid o)], true⟩ := by
  unfold RazorpayRoute.processRazorpayEvent
  simp only [hev, hpay, hfind, hwf, hst]
  simp only [show (("payment.captured" : String) == "payment.captured") = true from rfl,
    if_true, Option.isSome_some, Bool.true_and, beq_self_eq_true]
  have henq := razorpay_enqueue_found pl mid oid db [] o m url hfind hm hurl
  simpa using henq

/-- Signal-success behaviour of the Razorpay `payment.failed` branch. -/
theorem razorpay_signal_failed_behavior
    (now : Nat) (pl : RazorpayPayload) (p : RzpPaymentEntity) (mid oid wf : String)
    (db : DB) (o : Order) (m : Merchant) (url : String)
    (hev : pl.event = "payment.failed")
    (hpay : pl.payment = some p)
    (hfind : db.orders.find? (fun x => x.id == oid) = some o)
    (hwf : o.workflowId = some wf)
    (hst : o.status = "requires_action")
    (hm : db.merchants.find? (fun x => x.id == o.merchantId) = some m)
    (hurl : m.webhookUrl = some url) :
    RazorpayRoute.processRazorpayEvent true now pl mid (some oid) db =
      ⟨{ db with webhookEvents := db.webhookEvents ++ [RazorpayRoute.outboxRow pl mid oid o] },
        [.insertOutbox (RazorpayRoute.outboxRow pl mid oid o)], true⟩ := by
  unfold RazorpayRoute.processRazorpayEvent
  simp only [hev, hpay, hfind, hwf, hst]
  simp only [show (("payment.failed" : String) == "payment.captured") = false from rfl,
    show (("payment.failed" : String) == "payment.failed") = true from rfl,
    Bool.false_eq_true, if_false, if_true, Option.isSome_some, Bool.true_and,
    beq_self_eq_true]
  have henq := razorpay_enqueue_found pl mid oid db [] o m url hfind hm hurl
  simpa using henq

/-- C3 (amended): for every canonical capture/failure event (Stripe
payment_intent.succeeded / payment_intent.payment_failed, Razorpay
payment.captured / payment.failed) on an order in `requires_action` with a
live workflow id, when the signal succeeds the engine performs no direct
Order mutation and records no Transaction either; exactly one Outbox row is
written (the merchant having a webhook URL), and the run reports success. -/
theorem signal_success_no_mutation_one_outbox :
    (∀ (now : Nat) (ev : StripeEvent) (p : StripePaymentIntent) (mid oid wf : String)
        (db : DB) (o : Order) (m : Merchant) (url : String),
      (ev.eventType = "payment_intent.succeeded" ∨
        ev.eventType = "payment_intent.payment_failed") →
      ev.object = .paymentIntent p →
      db.orders.find? (fun x => x.id == oid) = some o →
      o.workflowId = some wf →
      o.status = "requires_action" →
      db.merchants.find? (fun x => x.id == o.merchantId) = some m →
      m.webhookUrl = some url →
      (StripeRoute.processStripeEvent true now ev mid (some oid) db).ok = true ∧
      (StripeRoute.processStripeEvent true now ev mid (some oid) db).db.orders = db.orders ∧
      (StripeRoute.processStripeEvent true now ev mid (some oid) db).db.transactions =
        db.transactions ∧
      (StripeRoute.processStripeEvent true now ev mid (some oid) db).db.webhookEvents =
        db.webhookEvents ++ [StripeRoute.outboxRow ev mid oid o]) ∧
    (∀ (now : Nat) (pl : RazorpayPayload) (p : RzpPaymentEntity) (mid oid wf : String)
        (db : DB) (o : Order) (m : Merchant) (url : String),
      (pl.event = "payment.captured" ∨ pl.event = "payment.failed") →
      pl.payment = some p →
      db.orders.find? (fun x => x.id == oid) = some o →
      o.workflowId = some wf →
      o.status = "requires_action" →
      db.merchants.find? (fun x => x.id == o.merchantId) = some m →
      m.webhookUrl = some url →
      (RazorpayRoute.processRazorpayEvent true now pl mid (some oid) db).ok = true ∧
      (RazorpayRoute.processRazorpayEvent true now pl mid (some oid) db).db.orders =
        db.orders ∧
      (RazorpayRoute.processRazorpayEvent true now pl mid (some oid) db).db.transactions =
        db.transactions ∧
      (RazorpayRoute.processRazorpayEvent true now pl mid (some oid) db).db.webhookEvents =
        db.webhookEvents ++ [RazorpayRoute.outboxRow pl mid oid o]) := by
  constructor
  · intro now ev p mid oid wf db o m url hty hobj hfind hwf hst hm hurl
    rcases hty with hty | hty
    · rw [stripe_signal_success_behavior now ev p mid oid wf db o m url
        hty hobj hfind hwf hst hm hurl]
      exact ⟨rfl, rfl, rfl, rfl⟩
    · rw [stripe_signal_failed_behavior now ev p mid oid wf db o m url
        hty hobj hfind hwf hst hm hurl]
      exact ⟨rfl, rfl, rfl, rfl⟩
  · intro now pl p mid oid wf db o m url hev hpay hfind hwf hst hm hurl
    rcases hev with hev | hev
    · rw [razorpay_signal_captured_behavior now pl p mid oid wf db o m url
        hev hpay hfind hwf hst hm hurl]
      exact ⟨rfl, rfl, rfl, rfl⟩
    · rw [razorpay_signal_failed_behavior now pl p mid oid wf db o m url
        hev hpay hfind hwf hst hm hurl]
      exact ⟨rfl, rfl, rfl, rfl⟩

/-- C8: for a capture event on an order in `requires_action` with a live
workflow id, when the signal throws the handler falls back to direct
mutation: the order row is set to `captured`, exactly one capture Transaction
and one Outbox row are appended, the run reports success, and the
caller-visible outcome equals that of the signal-success path. -/
theorem signal_failure_falls_back_to_direct_capture
    (now : Nat) (ev : StripeEvent) (p : StripePaymentIntent) (mid oid wf : String)
    (db : DB) (o : Order) (m : Merchant) (url : String)
    (hty : ev.eventType = "payment_intent.succeeded")
    (hobj : ev.object = .paymentIntent p)
    (hfind : db.orders.find? (fun x => x.id == oid) = some o)
    (hwf : o.workflowId = some wf)
    (hst : o.status = "requires_action")
    (hm : db.merchants.find? (fun x => x.id == o.merchantId) = some m)
    (hurl : m.webhookUrl = some url) :
    (StripeRoute.processStripeEvent false now ev mid (some oid) db).ok = true ∧
    (StripeRoute.processStripeEvent false now ev mid (some oid) db).db.orders.find?
        (fun x => x.id == oid) = some (setOrderRow "captured" (some p.id) now o) ∧
    (StripeRoute.processStripeEvent false now ev mid (some oid) db).db.transactions =
      db.transactions ++ [⟨oid, "capture", p.amount, "success", some p.id, none, none⟩] ∧
    (StripeRoute.processStripeEvent false now ev mid (some oid) db).db.webhookEvents =
      db.webhookEvents ++
        [StripeRoute.outboxRow ev mid oid (setOrderRow "captured" (some p.id) now o)] ∧
    (StripeRoute.processStripeEvent false now ev mid (some oid) db).ok =
      (StripeRoute.processStripeEvent true now ev mid (some oid) db).ok := by
  rw [stripe_signal_failure_fallback now ev p mid oid wf db o m url hty hobj hfind hwf hst hm hurl,
    stripe_signal_success_behavior now ev p mid oid wf db o m url hty hobj hfind hwf hst hm hurl]
  exact ⟨rfl, find?_map_updOrder oid "captured" (some p.id) now hfind, rfl, rfl, rfl⟩

/-- C4 (amended): refund completeness is a greater-or-equal comparison, but
its basis differs per processor: the Razorpay branch compares the refund
amount against the original order amount, while the Stripe branch compares
`amount_refunded` against the event charge amount. -/
theorem refund_completeness_comparison_basis :
    (∀ (signalOk : Bool) (now : Nat) (ev : StripeEvent) (ch : StripeCharge)
        (mid oid : String) (db : DB) (o : Order),
      ev.eventType = "charge.refunded" →
      ev.object = .charge ch →
      db.orders.find? (fun x => x.id == oid) = some o →
      (StripeRoute.processStripeEvent signalOk now ev mid (some oid) db).db.orders.find?
          (fun x => x.id == oid) =
        some (setOrderRow
          (if ch.amountRefunded ≥ ch.amount then "refunded" else "partially_refunded")
          none now o)) ∧
    (∀ (signalOk : Bool) (now : Nat) (pl : RazorpayPayload) (rf : RzpRefundEntity)
        (mid oid : String) (db : DB) (o : Order),
      pl.event = "refund.processed" →
      pl.refund = some rf →
      db.orders.find? (fun x => x.id == oid) = some o →
      (RazorpayRoute.processRazorpayEvent signalOk now pl mid (some oid) db).db.orders.find?
          (fun x => x.id == oid) =
        some (setOrderRow
          (if rf.amount ≥ o.amount then "refunded" else "partially_refunded") none now o)) := by
  constructor
  · intro signalOk now ev ch mid oid db o hty hobj hfind
    obtain ⟨h1, _, _⟩ := stripe_refund_branch signalOk now ev ch mid oid db o hty hobj hfind
    rw [h1]
    exact find?_map_updOrder _ _ _ _ hfind
  · intro signalOk now pl rf mid oid db o hev href hfind
    obtain ⟨h1, _, _⟩ := razorpay_refund_branch signalOk now pl rf mid oid db o hev href hfind
    rw [h1]
    exact find?_map_updOrder _ _ _ _ hfind

/-- C9: a webhook request carrying a signature whose event lacks merchant
correlation metadata is answered with HTTP 200 `received:true`, the database
untouched and no processing step entered, on both handlers. -/
theorem missing_merchant_metadata_is_accepted_noop :
    (∀ (verify : String → String → String → Bool) (parse : String → Option StripeEvent)
        (signalOk : Bool) (now : Nat) (db : DB) (sig raw : String)
        (ev : StripeEvent) (oid? : Option String),
      parse raw = some ev →
      stripeExtractIds ev = (none, oid?) →
      stripeWebhookHandler verify parse signalOk now db (some sig) raw =
        ⟨.received, db, [.jsonParse]⟩) ∧
    (∀ (hmac : String → String → String) (parse : String → Option RazorpayPayload)
        (signalOk : Bool) (now : Nat) (db : DB) (sig raw : String)
        (pl : RazorpayPayload) (oid? : Option String),
      parse raw = some pl →
      razorpayExtractIds pl = (none, oid?) →
      razorpayWebhookHandler hmac parse signalOk now db (some sig) raw =
        ⟨.received, db, [.jsonParse]⟩) ∧
    WebhookResponse.received.code = 200 := by
  refine ⟨?_, ?_, rfl⟩
  · intro verify parse signalOk now db sig raw ev oid? hparse hids
    unfold stripeWebhookHandler
    simp only [hparse, hids]
  · intro hmac parse signalOk now db sig raw pl oid? hparse hids
    unfold razorpayWebhookHandler
    simp only [hparse, hids]

/-- C2 (amended): every signature check is run on exactly the raw request
bytes, a reached mismatch is rejected with `invalid_signature` which is a
different error than the `processing_error` produced by a malformed payload;
however JSON parsing of the body always precedes signature verification. -/
theorem signature_raw_bytes_and_order :
    (∀ (verify : String → String → String → Bool) (parse : String → Option StripeEvent)
        (signalOk : Bool) (now : Nat) (db : DB) (sig? : Option String) (raw : String),
      verifyUsesRaw raw (stripeWebhookHandler verify parse signalOk now db sig? raw).trace = true) ∧
    (∀ (verify : String → String → String → Bool) (parse : String → Option StripeEvent)
        (signalOk : Bool) (now : Nat) (db : DB) (sig? : Option String) (raw : String),
      containsVerify (stripeWebhookHandler verify parse signalOk now db sig? raw).trace = true →
      parseBeforeVerify (stripeWebhookHandler verify parse signalOk now db sig? raw).trace = true) ∧
    (∀ (hmac : String → String → String) (parse : String → Option RazorpayPayload)
        (signalOk : Bool) (now : Nat) (db : DB) (sig? : Option String) (raw : String),
      verifyUsesRaw raw (razorpayWebhookHandler hmac parse signalOk now db sig? raw).trace = true) ∧
    (∀ (hmac : String → String → String) (parse : String → Option RazorpayPayload)
        (signalOk : Bool) (now : Nat) (db : DB) (sig? : Option String) (raw : String),
      containsVerify (razorpayWebhookHandler hmac parse signalOk now db sig? raw).trace = true →
      parseBeforeVerify (razorpayWebhookHandler hmac parse signalOk now db sig? raw).trace = true) ∧
    (∀ (verify : String → String → String → Bool) (parse : String → Option StripeEvent)
        (signalOk : Bool) (now : Nat) (db : DB) (sig raw : String),
      parse raw = none →
      (stripeWebhookHandler verify parse signalOk now db (some sig) raw).response =
        .errProcessing) ∧
    (∀ (verify : String → String → String → Bool) (parse : String → Option StripeEvent)
        (signalOk : Bool) (now : Nat) (db : DB) (sig raw : String)
        (ev : StripeEvent) (mid : String) (oid? : Option String)
        (cfg : ProcessorConfig) (secret : String),
      parse raw = some ev →
      stripeExtractIds ev = (some mid, oid?) →
      db.processorConfigs.find?
        (fun cf => cf.merchantId == mid && cf.processor == "stripe") = some cfg →
      cfg.webhookSecret = some secret →
      verify raw sig secret = false →
      (stripeWebhookHandler verify parse signalOk now db (some sig) raw).response =
        .errInvalidSignature) ∧
    (∀ (hmac : String → String → String) (parse : String → Option RazorpayPayload)
        (signalOk : Bool) (now : Nat) (db : DB) (sig raw : String)
        (pl : RazorpayPayload) (mid : String) (oid? : Option String)
        (cfg : ProcessorConfig) (secret : String),
      parse raw = some pl →
      razorpayExtractIds pl = (some mid, oid?) →
      db.processorConfigs.find?
        (fun cf => cf.merchantId == mid && cf.processor == "razorpay") = some cfg →
      cfg.webhookSecret = some secret →
      (sig == hmac secret raw) = false →
      (razorpayWebhookHandler hmac parse signalOk now db (some sig) raw).response =
        .errInvalidSignature) ∧
    WebhookResponse.errInvalidSignature ≠ WebhookResponse.errProcessing := by
  refine ⟨?_, ?_, ?_, ?_, ?_, ?_, ?_, by decide⟩
  · intro verify parse signalOk now db sig? raw
    unfold stripeWebhookHandler
    repeat' split <;> try simp [verifyUsesRaw]
  · intro verify parse signalOk now db sig? raw
    unfold stripeWebhookHandler
    repeat' split <;> try simp [containsVerify, parseBeforeVerify]
  · intro hmac parse signalOk now db sig? raw
    unfold razorpayWebhookHandler
    repeat' split <;> try simp [verifyUsesRaw]
  · intro hmac parse signalOk now db sig? raw
    unfold razorpayWebhookHandler
    repeat' split <;> try simp [containsVerify, parseBeforeVerify]
  · intro verify parse signalOk now db sig raw hparse
    unfold stripeWebhookHandler
    simp only [hparse]
  · intro verify parse signalOk now db sig raw ev mid oid? cfg secret
      hparse hids hcfg hsecret hverify
    unfold stripeWebhookHandler
    simp only [hparse, hids, hcfg, hsecret, hverify, Bool.false_eq_true, if_false]
  · intro hmac parse signalOk now db sig raw pl mid oid? cfg secret
      hparse hids hcfg hsecret hverify
    unfold razorpayWebhookHandler
    simp only [hparse, hids, hcfg, hsecret, hverify, Bool.false_eq_true, if_false]

/-- C10: when the merchant's stored credentials contain no `webhookSecret`,
signature verification is skipped entirely and the event is processed
whatever the signature header held; conversely `invalid_signature` is
returned only when a webhook secret is present and the check rejected. -/
theorem no_webhook_secret_skips_verification :
    (∀ (verify : String → String → String → Bool) (parse : String → Option StripeEvent)
        (signalOk : Bool) (now : Nat) (db : DB) (sig raw : String)
        (ev : StripeEvent) (mid : String) (oid? : Option String) (cfg : ProcessorConfig),
      parse raw = some ev →
      stripeExtractIds ev = (some mid, oid?) →
      db.processorConfigs.find?
        (fun cf => cf.merchantId == mid && cf.processor == "stripe") = some cfg →
      cfg.webhookSecret = none →
      stripeWebhookHandler verify parse signalOk now db (some sig) raw =
        ⟨if (StripeRoute.processStripeEvent signalOk now ev mid oid? db).ok then .received
          else .errProcessing,
         (StripeRoute.processStripeEvent signalOk now ev mid oid? db).db,
         [.jsonParse, .processEvent]⟩) ∧
    (∀ (verify : String → String → String → Bool) (parse : String → Option StripeEvent)
        (signalOk : Bool) (now : Nat) (db : DB) (sig? : Option String) (raw : String),
      (stripeWebhookHandler verify parse signalOk now db sig? raw).response =
          .errInvalidSignature →
      ∃ sig ev mid oid? cfg secret,
        sig? = some sig ∧ parse raw = some ev ∧
        stripeExtractIds ev = (some mid, oid?) ∧
        db.processorConfigs.find?
          (fun cf => cf.merchantId == mid && cf.processor == "stripe") = some cfg ∧
        cfg.webhookSecret = some secret ∧
        verify raw sig secret = false) ∧
    (∀ (hmac : String → String → String) (parse : String → Option RazorpayPayload)
        (signalOk : Bool) (now : Nat) (db : DB) (sig raw : String)
        (pl : RazorpayPayload) (mid : String) (oid? : Option String) (cfg : ProcessorConfig),
      parse raw = some pl →
      razorpayExtractIds pl = (some mid, oid?) →
      db.processorConfigs.find?
        (fun cf => cf.merchantId == mid && cf.processor == "razorpay") = some cfg →
      cfg.webhookSecret = none →
      razorpayWebhookHandler hmac parse signalOk now db (some sig) raw =
        ⟨if (RazorpayRoute.processRazorpayEvent signalOk now pl mid oid? db).ok then .received
          else .errProcessing,
         (RazorpayRoute.processRazorpayEvent signalOk now pl mid oid? db).db,
         [.jsonParse, .processEvent]⟩) ∧
    (∀ (hmac : String → String → String) (parse : String → Option RazorpayPayload)
        (signalOk : Bool) (now : Nat) (db : DB) (sig? : Option String) (raw : String),
      (razorpayWebhookHandler hmac parse signalOk now db sig? raw).response =
          .errInvalidSignature →
      ∃ sig pl mid oid? cfg secret,
        sig? = some sig ∧ parse raw = some pl ∧
        razorpayExtractIds pl = (some mid, oid?) ∧
        db.processorConfigs.find?
          (fun cf => cf.merchantId == mid && cf.processor == "razorpay") = some cfg ∧
        cfg.webhookSecret = some secret ∧
        (sig == hmac secret raw) = false) := by
  refine ⟨?_, ?_, ?_, ?_⟩
  · intro verify parse signalOk now db sig raw ev mid oid? cfg hparse hids hcfg hsec
    unfold stripeWebhookHandler
    simp only [hparse, hids, hcfg, hsec]
  · intro verify parse signalOk now db sig? raw h
    unfold stripeWebhookHandler at h
    repeat' split at h
    all_goals try simp at h
    all_goals try (split at h <;> simp at h)
    exact ⟨_, _, _, _, _, _, rfl, by assumption, by assumption, by assumption,
      by assumption, by simp_all⟩
  · intro hmac parse signalOk now db sig raw pl mid oid? cfg hparse hids hcfg hsec
    unfold razorpayWebhookHandler
    simp only [hparse, hids, hcfg, hsec]
  · intro hmac parse signalOk now db sig? raw h
    unfold razorpayWebhookHandler at h
    repeat' split at h
    all_goals try simp at h
    all_goals try (split at h <;> simp at h)
    exact ⟨_, _, _, _, _, _, rfl, by assumption, by assumption, by assumption,
      by assumption, by simp_all⟩

/-- Witness for C3 (amended) at the concrete awaiting order, exercising the
Stripe failure path and the Razorpay capture path. -/
theorem signal_success_no_mutation_one_outbox_witness :
    ordAwaiting.status = "requires_action" ∧
    evFailed.eventType = "payment_intent.payment_failed" ∧
    (StripeRoute.processStripeEvent true 10 evFailed "m1" (some "o1") dbAwaiting).db.transactions =
      dbAwaiting.transactions ∧
    rzpCapture.event = "payment.captured" ∧
    (RazorpayRoute.processRazorpayEvent true 11 rzpCapture "m1" (some "o1")
        dbAwaiting).db.transactions = dbAwaiting.transactions :=
  ⟨rfl, rfl,
    (signal_success_no_mutation_one_outbox.1 10 evFailed
      ⟨"pi_1", 1000, some "m1", some "o1", some "card_declined", some "Card declined"⟩
      "m1" "o1" "wf_1" dbAwaiting ordAwaiting merchA "https://merchant.example/hooks"
      (Or.inr rfl) rfl rfl rfl rfl rfl rfl).2.2.1,
    rfl,
    (signal_success_no_mutation_one_outbox.2 11 rzpCapture
      ⟨"pay_1", 1000, some "m1", some "o1", none, none⟩
      "m1" "o1" "wf_1" dbAwaiting ordAwaiting merchA "https://merchant.example/hooks"
      (Or.inl rfl) rfl rfl rfl rfl rfl rfl).2.2.1⟩

/-- Witness for C8 at the concrete awaiting order. -/
theorem signal_failure_falls_back_witness :
    ordAwaiting.workflowId = some "wf_1" ∧
    (StripeRoute.processStripeEvent false 8 evCapture "m1" (some "o1") dbAwaiting).ok = true :=
  ⟨rfl,
    (signal_failure_falls_back_to_direct_capture 8 evCapture
      ⟨"pi_1", 1000, some "m1", some "o1", none, none⟩ "m1" "o1" "wf_1"
      dbAwaiting ordAwaiting merchA "https://merchant.example/hooks"
      rfl rfl rfl rfl rfl rfl rfl).1⟩

/-- Witness for C4 (amended) at the concrete Razorpay refund of 600 on the
captured 1000 order. -/
theorem refund_completeness_comparison_witness :
    rzpRefund600.event = "refund.processed" ∧
    (RazorpayRoute.processRazorpayEvent true 9 rzpRefund600 "m1" (some "o1")
        dbCaptured).db.orders.find? (fun x => x.id == "o1") =
      some (setOrderRow
        (if (600 : Int) ≥ ordCaptured.amount then "refunded" else "partially_refunded")
        none 9 ordCaptured) :=
  ⟨rfl,
    refund_completeness_comparison_basis.2 true 9 rzpRefund600
      ⟨"rfnd_1", 600, some "m1", some "o1"⟩ "m1" "o1" dbCaptured ordCaptured
      rfl rfl rfl⟩

/-- Witness for C9 at the concrete metadata-less Stripe event. -/
theorem missing_merchant_metadata_witness :
    parseNoMerchant "x" = some evNoMerchant ∧
    stripeWebhookHandler (fun _ _ _ => true) parseNoMerchant true 0 dbProcessing
        (some "s") "x" =
      ⟨.received, dbProcessing, [.jsonParse]⟩ :=
  ⟨rfl,
    missing_merchant_metadata_is_accepted_noop.1 (fun _ _ _ => true) parseNoMerchant
      true 0 dbProcessing "s" "x" evNoMerchant none rfl rfl⟩

/-- Witness for C2 (amended): a rejecting verifier on the concrete capture
body produces `invalid_signature`. -/
theorem signature_raw_bytes_and_order_witness :
    parseFixture "body_capture" = some evCapture ∧
    (stripeWebhookHandler (fun _ _ _ => false) parseFixture true 0 dbProcessing
        (some "s") "body_capture").response = .errInvalidSignature :=
  ⟨rfl,
    signature_raw_bytes_and_order.2.2.2.2.2.1 (fun _ _ _ => false) parseFixture
      true 0 dbProcessing "s" "body_capture" evCapture "m1" (some "o1")
      cfgStripeA "whsec_a" rfl rfl rfl rfl rfl⟩

/-- Witness for C10: with no stored webhook secret, a garbage signature is
accepted and the event is processed. -/
theorem no_webhook_secret_skips_verification_witness :
    cfgStripeNoSec.webhookSecret = none ∧
    stripeWebhookHandler (fun _ _ _ => false) parseFixture true 0 dbNoSecret
        (some "garbage") "body_capture" =
      ⟨if (StripeRoute.processStripeEvent true 0 evCapture "m1" (some "o1") dbNoSecret).ok
          then .received else .errProcessing,
        (StripeRoute.processStripeEvent true 0 evCapture "m1" (some "o1") dbNoSecret).db,
        [.jsonParse, .processEvent]⟩ :=
  ⟨rfl,
    no_webhook_secret_skips_verification.1 (fun _ _ _ => false) parseFixture
      true 0 dbNoSecret "garbage" "body_capture" evCapture "m1" (some "o1")
      cfgStripeNoSec rfl rfl rfl rfl⟩
